import Mathlib

/-!
Verification of the cloud-security-predictor risk pipeline.

Shallow embedding of `backend/app/risk_engine.py`, `backend/app/explainer.py`
and `backend/app/ml_model.py`.  Python floats are modelled as rationals (`ℚ`),
Python ints as `ℤ`, Python strings as `String`.  Functions that can raise a
Python exception are modelled with `Option`/`Except`, `none`/`.error` standing
for the raised exception.
-/

/-! ## Risk engine (`risk_engine.py`) -/

/-- `RiskScoringEngine.ANOMALY_WEIGHT` (risk_engine.py line 16). -/
def ANOMALY_WEIGHT : ℚ := 50

/-- `RiskScoringEngine.FAILED_LOGIN_WEIGHT` (risk_engine.py line 17). -/
def FAILED_LOGIN_WEIGHT : ℚ := 5

/-- `RiskScoringEngine.PRIVILEGE_CHANGE_WEIGHT` (risk_engine.py line 18). -/
def PRIVILEGE_CHANGE_WEIGHT : ℚ := 20

/-- `RiskScoringEngine.VM_CREATION_WEIGHT` (risk_engine.py line 19). -/
def VM_CREATION_WEIGHT : ℚ := 5

/-- `RiskScoringEngine.LOW_THRESHOLD` (risk_engine.py line 22). -/
def LOW_THRESHOLD : ℚ := 30

/-- `RiskScoringEngine.MEDIUM_THRESHOLD` (risk_engine.py line 23). -/
def MEDIUM_THRESHOLD : ℚ := 70

/-- `RiskScoringEngine.calculate_risk_score` (risk_engine.py lines 25-58):
weighted sum of the four inputs, capped at 100 by `min(score, 100.0)`. -/
def calculate_risk_score (anomaly_score : ℚ) (failed_login_attempts : ℤ)
    (privilege_change : Bool) (vm_creation_count : ℤ) : ℚ :=
  min
    (anomaly_score * ANOMALY_WEIGHT +
      (failed_login_attempts : ℚ) * FAILED_LOGIN_WEIGHT +
      (if privilege_change then (1 : ℚ) else 0) * PRIVILEGE_CHANGE_WEIGHT +
      (vm_creation_count : ℚ) * VM_CREATION_WEIGHT)
    100

/-- `RiskScoringEngine.classify_risk_level` (risk_engine.py lines 60-81). -/
def classify_risk_level (risk_score : ℚ) : String :=
  if risk_score ≤ LOW_THRESHOLD then "Low"
  else if risk_score ≤ MEDIUM_THRESHOLD then "Medium"
  else "High"

/-- C1: on the documented domain (anomaly score in `[0,1]`, non-negative
counts) `calculate_risk_score` returns exactly
`min (a*50 + failed*5 + (20 if privilege else 0) + vm*5) 100`, and the example
input `(0.8, 12, true, 15)` has raw sum 195 and is clamped to 100. -/
theorem C1_calculate_risk_score_formula (a : ℚ) (f v : ℤ) (p : Bool)
    (h₀ : 0 ≤ a) (h₁ : a ≤ 1) (hf : 0 ≤ f) (hv : 0 ≤ v) :
    calculate_risk_score a f p v =
      min (a * 50 + (f : ℚ) * 5 + (if p then 20 else 0) + (v : ℚ) * 5) 100 ∧
    calculate_risk_score 0.8 12 true 15 = 100 ∧
    (0.8 : ℚ) * 50 + (12 : ℚ) * 5 + 20 + (15 : ℚ) * 5 = 195 := by
  refine ⟨?_, ?_, by norm_num⟩
  · unfold calculate_risk_score ANOMALY_WEIGHT FAILED_LOGIN_WEIGHT
      PRIVILEGE_CHANGE_WEIGHT VM_CREATION_WEIGHT
    congr 1
    cases p <;> simp
  · unfold calculate_risk_score ANOMALY_WEIGHT FAILED_LOGIN_WEIGHT
      PRIVILEGE_CHANGE_WEIGHT VM_CREATION_WEIGHT
    norm_num [min_def]

/-- Witness for C1 at a concrete admissible input. -/
theorem C1_calculate_risk_score_formula_witness :
    calculate_risk_score 0.5 2 false 1 =
      min ((0.5 : ℚ) * 50 + (2 : ℚ) * 5 + (if false then 20 else 0) + (1 : ℚ) * 5) 100 ∧
    calculate_risk_score 0.8 12 true 15 = 100 ∧
    (0.8 : ℚ) * 50 + (12 : ℚ) * 5 + 20 + (15 : ℚ) * 5 = 195 :=
  C1_calculate_risk_score_formula 0.5 2 1 false (by norm_num) (by norm_num)
    (by norm_num) (by norm_num)

/-- C2: `classify_risk_level` returns `"Low"` iff the score is `≤ 30`,
`"Medium"` iff it is in `(30, 70]`, `"High"` iff it is `> 70`, and the
boundary examples 30, 30.0001, 70, 70.0001 classify as Low, Medium, Medium,
High respectively. -/
theorem C2_classify_risk_level_bands (r : ℚ) :
    (classify_risk_level r = "Low" ↔ r ≤ 30) ∧
    (classify_risk_level r = "Medium" ↔ 30 < r ∧ r ≤ 70) ∧
    (classify_risk_level r = "High" ↔ 70 < r) ∧
    classify_risk_level 30 = "Low" ∧
    classify_risk_level 30.0001 = "Medium" ∧
    classify_risk_level 70 = "Medium" ∧
    classify_risk_level 70.0001 = "High" := by
  refine ⟨?_, ?_, ?_, ?_, ?_, ?_, ?_⟩ <;>
    simp only [classify_risk_level, LOW_THRESHOLD, MEDIUM_THRESHOLD]
  · split_ifs with h1 h2
    · exact iff_of_true rfl h1
    · exact iff_of_false (by decide) h1
    · exact iff_of_false (by decide) h1
  · split_ifs with h1 h2
    · refine iff_of_false (by decide) ?_
      rintro ⟨hl, hh⟩
      linarith
    · exact iff_of_true rfl ⟨not_le.mp h1, h2⟩
    · refine iff_of_false (by decide) ?_
      rintro ⟨hl, hh⟩
      exact h2 hh
  · split_ifs with h1 h2
    · refine iff_of_false (by decide) ?_
      intro h
      linarith
    · refine iff_of_false (by decide) ?_
      intro h
      linarith
    · exact iff_of_true rfl (not_le.mp h2)
  · norm_num
  · norm_num
  · norm_num
  · norm_num

/-- C3: `calculate_risk_score` is monotone non-decreasing in each argument
separately (anomaly score within `[0,1]`, each count, and the privilege flag
flipped from `false` to `true`); the clamp `min · 100` preserves this. -/
theorem C3_calculate_risk_score_monotone :
    (∀ (a a' : ℚ) (f v : ℤ) (p : Bool), 0 ≤ a → a ≤ a' → a' ≤ 1 →
      calculate_risk_score a f p v ≤ calculate_risk_score a' f p v) ∧
    (∀ (a : ℚ) (f f' v : ℤ) (p : Bool), 0 ≤ f → f ≤ f' →
      calculate_risk_score a f p v ≤ calculate_risk_score a f' p v) ∧
    (∀ (a : ℚ) (f v v' : ℤ) (p : Bool), 0 ≤ v → v ≤ v' →
      calculate_risk_score a f p v ≤ calculate_risk_score a f p v') ∧
    (∀ (a : ℚ) (f v : ℤ),
      calculate_risk_score a f false v ≤ calculate_risk_score a f true v) := by
  refine ⟨?_, ?_, ?_, ?_⟩
  · intro a a' f v p h0 h1 h2
    unfold calculate_risk_score ANOMALY_WEIGHT FAILED_LOGIN_WEIGHT
      PRIVILEGE_CHANGE_WEIGHT VM_CREATION_WEIGHT
    refine min_le_min ?_ le_rfl
    have : a * 50 ≤ a' * 50 := by linarith
    linarith
  · intro a f f' v p h0 h1
    unfold calculate_risk_score ANOMALY_WEIGHT FAILED_LOGIN_WEIGHT
      PRIVILEGE_CHANGE_WEIGHT VM_CREATION_WEIGHT
    refine min_le_min ?_ le_rfl
    have : (f : ℚ) ≤ (f' : ℚ) := by exact_mod_cast h1
    linarith
  · intro a f v v' p h0 h1
    unfold calculate_risk_score ANOMALY_WEIGHT FAILED_LOGIN_WEIGHT
      PRIVILEGE_CHANGE_WEIGHT VM_CREATION_WEIGHT
    refine min_le_min ?_ le_rfl
    have : (v : ℚ) ≤ (v' : ℚ) := by exact_mod_cast h1
    linarith
  · intro a f v
    unfold calculate_risk_score ANOMALY_WEIGHT FAILED_LOGIN_WEIGHT
      PRIVILEGE_CHANGE_WEIGHT VM_CREATION_WEIGHT
    refine min_le_min ?_ le_rfl
    norm_num

/-- Witness for C3 at concrete inputs. -/
theorem C3_calculate_risk_score_monotone_witness :
    calculate_risk_score 0.2 3 false 2 ≤ calculate_risk_score 0.9 3 false 2 ∧
    calculate_risk_score 0.2 3 false 2 ≤ calculate_risk_score 0.2 7 false 2 ∧
    calculate_risk_score 0.2 3 false 2 ≤ calculate_risk_score 0.2 3 false 6 ∧
    calculate_risk_score 0.2 3 false 2 ≤ calculate_risk_score 0.2 3 true 2 :=
  ⟨C3_calculate_risk_score_monotone.1 0.2 0.9 3 2 false (by norm_num) (by norm_num) (by norm_num),
   C3_calculate_risk_score_monotone.2.1 0.2 3 7 2 false (by norm_num) (by norm_num),
   C3_calculate_risk_score_monotone.2.2.1 0.2 3 2 6 false (by norm_num) (by norm_num),
   C3_calculate_risk_score_monotone.2.2.2 0.2 3 2⟩

/-- C10: both functions are total with no input validation: the score has no
lower clamp, so out-of-domain inputs yield negative scores, and the
classifier maps every rational to one of the three levels, `"Low"` for
everything `≤ 30` (negatives included) and `"High"` for everything `> 70`
(values above 100 included). -/
theorem C10_no_validation_totality :
    calculate_risk_score (-1) 0 false 0 = -50 ∧
    calculate_risk_score (-1) 0 false 0 < 0 ∧
    calculate_risk_score 0 (-3) false 0 = -15 ∧
    (∀ r : ℚ, r ≤ 30 → classify_risk_level r = "Low") ∧
    (∀ r : ℚ, 70 < r → classify_risk_level r = "High") ∧
    (∀ r : ℚ, classify_risk_level r = "Low" ∨ classify_risk_level r = "Medium" ∨
      classify_risk_level r = "High") ∧
    classify_risk_level (-5) = "Low" ∧
    classify_risk_level 150 = "High" := by
  refine ⟨?_, ?_, ?_, ?_, ?_, ?_, ?_, ?_⟩
  · unfold calculate_risk_score ANOMALY_WEIGHT FAILED_LOGIN_WEIGHT
      PRIVILEGE_CHANGE_WEIGHT VM_CREATION_WEIGHT
    norm_num [min_def]
  · unfold calculate_risk_score ANOMALY_WEIGHT FAILED_LOGIN_WEIGHT
      PRIVILEGE_CHANGE_WEIGHT VM_CREATION_WEIGHT
    norm_num [min_def]
  · unfold calculate_risk_score ANOMALY_WEIGHT FAILED_LOGIN_WEIGHT
      PRIVILEGE_CHANGE_WEIGHT VM_CREATION_WEIGHT
    norm_num [min_def]
  · intro r h
    simp only [classify_risk_level, LOW_THRESHOLD]
    rw [if_pos h]
  · intro r h
    simp only [classify_risk_level, LOW_THRESHOLD, MEDIUM_THRESHOLD]
    rw [if_neg (by linarith), if_neg (by linarith)]
  · intro r
    simp only [classify_risk_level]
    split_ifs <;> simp
  · norm_num [classify_risk_level, LOW_THRESHOLD]
  · norm_num [classify_risk_level, LOW_THRESHOLD, MEDIUM_THRESHOLD]

/-- Witness for C10's quantified clauses at concrete inputs. -/
theorem C10_no_validation_totality_witness :
    classify_risk_level 20 = "Low" ∧ classify_risk_level 80 = "High" ∧
    (classify_risk_level 45 = "Low" ∨ classify_risk_level 45 = "Medium" ∨
      classify_risk_level 45 = "High") :=
  ⟨C10_no_validation_totality.2.2.2.1 20 (by norm_num),
   C10_no_validation_totality.2.2.2.2.1 80 (by norm_num),
   C10_no_validation_totality.2.2.2.2.2.1 45⟩

/-! ## Explainer (`explainer.py`) -/

/-- A log record as consumed by the explainer and the ML model.  Python dict
access via `.get` with a default is modelled by giving each field the
defaulted value type (`.get('failed_login_attempts', 0)` etc.); a missing
`login_location`/`resource_access_level` behaves like a string matching no
check, and a missing `login_time` like `''`. -/
structure LogData where
  user_id : String
  login_location : String
  login_time : String
  failed_login_attempts : ℤ
  resource_access_level : String
  vm_creation_count : ℤ
  privilege_change : Bool
  anomaly_score : ℚ
deriving DecidableEq

/-- The denylist `unusual_locations` (explainer.py line 33, ml_model.py line 53). -/
def unusual_locations : List String :=
  ["Unknown", "Tor-Exit-Node", "Darknet", "Suspicious-IP", "Blacklisted-Region"]

/-- Python `str.split(c)` for a one-character separator, on the character
list of the string.  Always returns a non-empty list. -/
def splitOnChar (c : Char) : List Char → List (List Char)
  | [] => [[]]
  | x :: xs =>
    match splitOnChar c xs with
    | [] => [[]]
    | y :: ys => if x = c then [] :: y :: ys else (x :: y) :: ys

/-- Decimal-digit accumulator for `pyInt`. -/
def digitsValAux : List Char → ℕ → Option ℕ
  | [], acc => some acc
  | c :: cs, acc =>
    if c.isDigit then digitsValAux cs (10 * acc + (c.toNat - 48)) else none

/-- Python `int(s)` on a string: an optional sign followed by at least one
decimal digit; anything else raises `ValueError`, modelled as `none`
(surrounding whitespace and `_` separators, which Python also accepts, are
not modelled — no claim depends on them). -/
def pyInt : List Char → Option ℤ
  | [] => none
  | '-' :: ds =>
    if ds = [] then none else (digitsValAux ds 0).map (fun n => -(n : ℤ))
  | '+' :: ds =>
    if ds = [] then none else (digitsValAux ds 0).map (fun n => (n : ℤ))
  | ds => (digitsValAux ds 0).map (fun n => (n : ℤ))

/-- `int(login_time.split(':')[0])` (explainer.py line 76). -/
def parseHourPrefix (login_time : String) : Option ℤ :=
  match splitOnChar ':' login_time.data with
  | [] => none
  | d :: _ => pyInt d

/-- Message of the unusual-location check (explainer.py lines 34-37). -/
def locationMsg (loc : String) : String :=
  "⚠️ Unusual login location detected: " ++ loc

/-- Message of the `failed_attempts >= 5` branch (explainer.py lines 41-44). -/
def multipleFailedMsg (n : ℤ) : String :=
  "🔒 Multiple failed login attempts: " ++ (toString n ++ " failures")

/-- Message of the `failed_attempts >= 3` branch (explainer.py lines 45-48). -/
def elevatedFailedMsg (n : ℤ) : String :=
  "⚠️ Elevated failed login attempts: " ++ (toString n ++ " failures")

/-- Message of the privilege-change check (explainer.py lines 51-54). -/
def privilegeMsg : String :=
  "🔐 Privilege escalation detected - unauthorized elevation of permissions"

/-- Message of the `vm_count >= 10` branch (explainer.py lines 58-61). -/
def suspiciousVmMsg (n : ℤ) : String :=
  "💻 Suspicious VM creation activity: " ++ (toString n ++ " VMs created")

/-- Message of the `vm_count >= 5` branch (explainer.py lines 62-65). -/
def elevatedVmMsg (n : ℤ) : String :=
  "⚠️ Elevated VM creation: " ++ (toString n ++ " VMs created")

/-- Message of the high-resource-access check (explainer.py lines 68-71). -/
def resourceMsg : String :=
  "🔑 High-level resource access requested"

/-- Message of the unusual-hours check (explainer.py lines 77-80). -/
def unusualHoursMsg (t : String) : String :=
  "🕐 Login during unusual hours: " ++ t

/-- Combined ML-factors message (explainer.py lines 90-93). -/
def mlFactorsMsg (factors : List String) : String :=
  "🤖 ML model identified key risk factors: " ++ String.intercalate ", " factors

/-- Generic fallback message, high-anomaly variant (explainer.py lines 99-101). -/
def behavioralMsg : String :=
  "🔍 Behavioral pattern deviates significantly from normal activity"

/-- Generic fallback message, low-anomaly variant (explainer.py lines 103-105). -/
def minorIndicatorsMsg : String :=
  "ℹ️ Multiple minor risk indicators combined"

/-- Check 1 of `generate_explanation`: unusual location (explainer.py lines 33-37). -/
def locationMsgs (log : LogData) : List String :=
  if log.login_location ∈ unusual_locations then [locationMsg log.login_location] else []

/-- Check 2: failed login attempts (explainer.py lines 40-48). -/
def failedMsgs (log : LogData) : List String :=
  if 5 ≤ log.failed_login_attempts then [multipleFailedMsg log.failed_login_attempts]
  else if 3 ≤ log.failed_login_attempts then [elevatedFailedMsg log.failed_login_attempts]
  else []

/-- Check 3: privilege escalation (explainer.py lines 51-54). -/
def privilegeMsgs (log : LogData) : List String :=
  if log.privilege_change then [privilegeMsg] else []

/-- Check 4: VM creation spike (explainer.py lines 57-65). -/
def vmMsgs (log : LogData) : List String :=
  if 10 ≤ log.vm_creation_count then [suspiciousVmMsg log.vm_creation_count]
  else if 5 ≤ log.vm_creation_count then [elevatedVmMsg log.vm_creation_count]
  else []

/-- Check 5: high resource access (explainer.py lines 68-71). -/
def resourceMsgs (log : LogData) : List String :=
  if log.resource_access_level = "high" then [resourceMsg] else []

/-- Check 6: unusual login time (explainer.py lines 74-80).  The `int(...)`
call raises `ValueError` on a malformed `login_time`, modelled as `none`. -/
def timeMsgs (log : LogData) : Option (List String) :=
  if log.login_time = "" then some []
  else
    match parseHourPrefix log.login_time with
    | none => none
    | some hour =>
      some (if hour < 6 ∨ hour > 22 then [unusualHoursMsg log.login_time] else [])

/-- `pyTitle` worker: Python `str.title()`, tracking whether the previous
character was alphabetic. -/
def pyTitleAux : List Char → Bool → List Char
  | [], _ => []
  | c :: cs, prevAlpha =>
    (if prevAlpha then c.toLower else c.toUpper) :: pyTitleAux cs c.isAlpha

/-- Python `str.title()`. -/
def pyTitle (s : String) : String := ⟨pyTitleAux s.data false⟩

/-- `feature_name.replace('_', ' ').title()` (explainer.py line 87). -/
def humanizeFeature (name : String) : String :=
  pyTitle ⟨name.data.map (fun c => if c = '_' then ' ' else c)⟩

/-- Check 7 filter: humanized names of the first three supplied features with
importance above 0.5 (explainer.py lines 83-88).  `none`/`some []` model the
falsy values of `if top_features:`. -/
def mlFactors (top_features : Option (List (String × ℚ))) : List String :=
  match top_features with
  | none => []
  | some [] => []
  | some tf =>
    ((tf.take 3).filter (fun p => (0.5 : ℚ) < p.2)).map (fun p => humanizeFeature p.1)

/-- Check 7 message list (explainer.py lines 90-93). -/
def mlMsgs (top_features : Option (List (String × ℚ))) : List String :=
  match mlFactors top_features with
  | [] => []
  | fs => [mlFactorsMsg fs]

/-- Step 8 fallback (explainer.py lines 96-105); the code's
`anomaly_score and anomaly_score > 0.6` truthiness test is the conjunction. -/
def fallbackMsg (log : LogData) : String :=
  if log.anomaly_score ≠ 0 ∧ (0.6 : ℚ) < log.anomaly_score then behavioralMsg
  else minorIndicatorsMsg

/-- `AlertExplainer.generate_explanation` (explainer.py lines 15-107).
`none` models a raised Python exception (only possible in check 6). -/
def generate_explanation (log : LogData)
    (top_features : Option (List (String × ℚ))) : Option (List String) :=
  match timeMsgs log with
  | none => none
  | some tm =>
    let explanations :=
      locationMsgs log ++ failedMsgs log ++ privilegeMsgs log ++ vmMsgs log ++
        resourceMsgs log ++ tm ++ mlMsgs top_features
    some (if explanations = [] then [fallbackMsg log] else explanations)

/-- Two string appends differ when the left parts differ within their first
`k` characters. -/
theorem append_ne_append_of_take_ne (p₁ s₁ p₂ s₂ : String) (k : ℕ)
    (h₁ : k ≤ p₁.data.length) (h₂ : k ≤ p₂.data.length)
    (hne : p₁.data.take k ≠ p₂.data.take k) : p₁ ++ s₁ ≠ p₂ ++ s₂ := by
  intro he
  apply hne
  have hd : (p₁ ++ s₁).data = (p₂ ++ s₂).data := by rw [he]
  rw [String.data_append, String.data_append] at hd
  have h3 := congrArg (List.take k) hd
  rwa [List.take_append_of_le_length h₁, List.take_append_of_le_length h₂] at h3

/-- A string append differs from a plain string that differs within the first
`k` characters of the left part. -/
theorem append_ne_of_take_ne (p₁ s₁ m : String) (k : ℕ)
    (h₁ : k ≤ p₁.data.length)
    (hne : p₁.data.take k ≠ m.data.take k) : p₁ ++ s₁ ≠ m := by
  intro he
  apply hne
  have hd : (p₁ ++ s₁).data = m.data := by rw [he]
  rw [String.data_append] at hd
  have h3 := congrArg (List.take k) hd
  rwa [List.take_append_of_le_length h₁] at h3

/-- An element distinct from `m` is not in `if c then [m] else []`. -/
theorem not_mem_ite_singleton {x m : String} {c : Prop} [Decidable c]
    (h : x ≠ m) : x ∉ (if c then [m] else []) := by
  split_ifs <;> simp [h]

/-- C4 fails as stated: on a record whose `login_time` is present but not
parsable as an integer hour (here `"noon"`), `generate_explanation` raises
`ValueError` from `int(login_time.split(':')[0])` instead of returning a
list; the raised exception is modelled by `none`. -/
theorem C4_counterexample_malformed_time :
    generate_explanation ⟨"user1", "Paris", "noon", 0, "low", 0, false, 0⟩ none
      = none := by decide

/-- C4 (amended): for every record whose `login_time` is empty or whose
prefix before `':'` parses as an integer, `generate_explanation` returns a
non-empty list, and when no specific check fires it is exactly the one
generic fallback message — the behavioral-deviation message if
`anomaly_score > 0.6`, else the combined-minor-indicators message. -/
theorem C4_explainer_nonempty_on_parsable_time (log : LogData)
    (tf : Option (List (String × ℚ)))
    (hp : log.login_time = "" ∨ (parseHourPrefix log.login_time).isSome) :
    ∃ l, generate_explanation log tf = some l ∧ l ≠ [] ∧
      ((log.login_location ∉ unusual_locations ∧
        log.failed_login_attempts < 3 ∧
        log.privilege_change = false ∧
        log.vm_creation_count < 5 ∧
        log.resource_access_level ≠ "high" ∧
        (∀ h : ℤ, parseHourPrefix log.login_time = some h → 6 ≤ h ∧ h ≤ 22) ∧
        mlFactors tf = []) →
        l = [if (0.6 : ℚ) < log.anomaly_score then behavioralMsg
             else minorIndicatorsMsg]) := by
  have htm : ∃ tm, timeMsgs log = some tm := by
    rcases hp with h | h
    · exact ⟨[], by simp [timeMsgs, h]⟩
    · unfold timeMsgs
      split_ifs with h0
      · exact ⟨[], rfl⟩
      · rw [Option.isSome_iff_exists] at h
        obtain ⟨hour, hh⟩ := h
        rw [hh]
        exact ⟨_, rfl⟩
  obtain ⟨tm, htmeq⟩ := htm
  unfold generate_explanation
  rw [htmeq]
  refine ⟨_, rfl, ?_, ?_⟩
  · split_ifs with he
    · simp
    · exact he
  · rintro ⟨h1, h2, h3, h4, h5, h6, h7⟩
    have e1 : locationMsgs log = [] := by simp [locationMsgs, h1]
    have e2 : failedMsgs log = [] := by
      unfold failedMsgs
      rw [if_neg (by omega), if_neg (by omega)]
    have e3 : privilegeMsgs log = [] := by simp [privilegeMsgs, h3]
    have e4 : vmMsgs log = [] := by
      unfold vmMsgs
      rw [if_neg (by omega), if_neg (by omega)]
    have e5 : resourceMsgs log = [] := by simp [resourceMsgs, h5]
    have e6 : tm = [] := by
      unfold timeMsgs at htmeq
      split_ifs at htmeq with h0
      · exact (Option.some.inj htmeq).symm
      · cases hph : parseHourPrefix log.login_time with
        | none => rw [hph] at htmeq; cases htmeq
        | some hour =>
          rw [hph] at htmeq
          have hrange := h6 hour hph
          have := Option.some.inj htmeq
          rw [← this, if_neg (by omega)]
    have e7 : mlMsgs tf = [] := by
      unfold mlMsgs
      rw [h7]
    rw [e1, e2, e3, e4, e5, e6, e7]
    rw [if_pos (by simp)]
    congr 1
    unfold fallbackMsg
    by_cases hA : (0.6 : ℚ) < log.anomaly_score
    · rw [if_pos ⟨by intro hz; rw [hz] at hA; norm_num at hA, hA⟩, if_pos hA]
    · rw [if_neg (by rintro ⟨hz, hgt⟩; exact hA hgt), if_neg hA]

/-- Witness for the amended C4 on a concrete record with empty `login_time`. -/
theorem C4_explainer_nonempty_on_parsable_time_witness :
    ∃ l, generate_explanation ⟨"u1", "Paris", "", 0, "low", 0, false, 0⟩ none
        = some l ∧ l ≠ [] ∧
      ((("Paris" : String) ∉ unusual_locations ∧
        (0 : ℤ) < 3 ∧
        false = false ∧
        (0 : ℤ) < 5 ∧
        ("low" : String) ≠ "high" ∧
        (∀ h : ℤ, parseHourPrefix "" = some h → 6 ≤ h ∧ h ≤ 22) ∧
        mlFactors none = []) →
        l = [if (0.6 : ℚ) < (0 : ℚ) then behavioralMsg else minorIndicatorsMsg]) :=
  C4_explainer_nonempty_on_parsable_time
    ⟨"u1", "Paris", "", 0, "low", 0, false, 0⟩ none (Or.inl rfl)

/-! String inequalities between distinct explainer messages (they differ in
their leading characters). -/

theorem elevatedFailedMsg_ne_locationMsg (n : ℤ) (loc : String) :
    elevatedFailedMsg n ≠ locationMsg loc := by
  unfold elevatedFailedMsg locationMsg
  exact append_ne_append_of_take_ne _ _ _ _ 4 (by decide) (by decide) (by decide)

theorem elevatedFailedMsg_ne_multipleFailedMsg (n m : ℤ) :
    elevatedFailedMsg n ≠ multipleFailedMsg m := by
  unfold elevatedFailedMsg multipleFailedMsg
  exact append_ne_append_of_take_ne _ _ _ _ 1 (by decide) (by decide) (by decide)

theorem elevatedFailedMsg_ne_privilegeMsg (n : ℤ) :
    elevatedFailedMsg n ≠ privilegeMsg := by
  unfold elevatedFailedMsg privilegeMsg
  exact append_ne_of_take_ne _ _ _ 1 (by decide) (by decide)

theorem elevatedFailedMsg_ne_suspiciousVmMsg (n m : ℤ) :
    elevatedFailedMsg n ≠ suspiciousVmMsg m := by
  unfold elevatedFailedMsg suspiciousVmMsg
  exact append_ne_append_of_take_ne _ _ _ _ 1 (by decide) (by decide) (by decide)

theorem elevatedFailedMsg_ne_elevatedVmMsg (n m : ℤ) :
    elevatedFailedMsg n ≠ elevatedVmMsg m := by
  unfold elevatedFailedMsg elevatedVmMsg
  exact append_ne_append_of_take_ne _ _ _ _ 13 (by decide) (by decide) (by decide)

theorem elevatedFailedMsg_ne_resourceMsg (n : ℤ) :
    elevatedFailedMsg n ≠ resourceMsg := by
  unfold elevatedFailedMsg resourceMsg
  exact append_ne_of_take_ne _ _ _ 1 (by decide) (by decide)

theorem elevatedFailedMsg_ne_unusualHoursMsg (n : ℤ) (t : String) :
    elevatedFailedMsg n ≠ unusualHoursMsg t := by
  unfold elevatedFailedMsg unusualHoursMsg
  exact append_ne_append_of_take_ne _ _ _ _ 1 (by decide) (by decide) (by decide)

theorem elevatedFailedMsg_ne_mlFactorsMsg (n : ℤ) (fs : List String) :
    elevatedFailedMsg n ≠ mlFactorsMsg fs := by
  unfold elevatedFailedMsg mlFactorsMsg
  exact append_ne_append_of_take_ne _ _ _ _ 1 (by decide) (by decide) (by decide)

theorem elevatedVmMsg_ne_locationMsg (n : ℤ) (loc : String) :
    elevatedVmMsg n ≠ locationMsg loc := by
  unfold elevatedVmMsg locationMsg
  exact append_ne_append_of_take_ne _ _ _ _ 4 (by decide) (by decide) (by decide)

theorem elevatedVmMsg_ne_multipleFailedMsg (n m : ℤ) :
    elevatedVmMsg n ≠ multipleFailedMsg m := by
  unfold elevatedVmMsg multipleFailedMsg
  exact append_ne_append_of_take_ne _ _ _ _ 1 (by decide) (by decide) (by decide)

theorem elevatedVmMsg_ne_elevatedFailedMsg (n m : ℤ) :
    elevatedVmMsg n ≠ elevatedFailedMsg m := by
  unfold elevatedVmMsg elevatedFailedMsg
  exact append_ne_append_of_take_ne _ _ _ _ 13 (by decide) (by decide) (by decide)

theorem elevatedVmMsg_ne_privilegeMsg (n : ℤ) :
    elevatedVmMsg n ≠ privilegeMsg := by
  unfold elevatedVmMsg privilegeMsg
  exact append_ne_of_take_ne _ _ _ 1 (by decide) (by decide)

theorem elevatedVmMsg_ne_suspiciousVmMsg (n m : ℤ) :
    elevatedVmMsg n ≠ suspiciousVmMsg m := by
  unfold elevatedVmMsg suspiciousVmMsg
  exact append_ne_append_of_take_ne _ _ _ _ 1 (by decide) (by decide) (by decide)

theorem elevatedVmMsg_ne_resourceMsg (n : ℤ) :
    elevatedVmMsg n ≠ resourceMsg := by
  unfold elevatedVmMsg resourceMsg
  exact append_ne_of_take_ne _ _ _ 1 (by decide) (by decide)

theorem elevatedVmMsg_ne_unusualHoursMsg (n : ℤ) (t : String) :
    elevatedVmMsg n ≠ unusualHoursMsg t := by
  unfold elevatedVmMsg unusualHoursMsg
  exact append_ne_append_of_take_ne _ _ _ _ 1 (by decide) (by decide) (by decide)

theorem elevatedVmMsg_ne_mlFactorsMsg (n : ℤ) (fs : List String) :
    elevatedVmMsg n ≠ mlFactorsMsg fs := by
  unfold elevatedVmMsg mlFactorsMsg
  exact append_ne_append_of_take_ne _ _ _ _ 1 (by decide) (by decide) (by decide)

theorem mlFactorsMsg_ne_locationMsg (fs : List String) (loc : String) :
    mlFactorsMsg fs ≠ locationMsg loc := by
  unfold mlFactorsMsg locationMsg
  exact append_ne_append_of_take_ne _ _ _ _ 1 (by decide) (by decide) (by decide)

theorem mlFactorsMsg_ne_multipleFailedMsg (fs : List String) (n : ℤ) :
    mlFactorsMsg fs ≠ multipleFailedMsg n := by
  unfold mlFactorsMsg multipleFailedMsg
  exact append_ne_append_of_take_ne _ _ _ _ 1 (by decide) (by decide) (by decide)

theorem mlFactorsMsg_ne_elevatedFailedMsg (fs : List String) (n : ℤ) :
    mlFactorsMsg fs ≠ elevatedFailedMsg n := by
  unfold mlFactorsMsg elevatedFailedMsg
  exact append_ne_append_of_take_ne _ _ _ _ 1 (by decide) (by decide) (by decide)

theorem mlFactorsMsg_ne_privilegeMsg (fs : List String) :
    mlFactorsMsg fs ≠ privilegeMsg := by
  unfold mlFactorsMsg privilegeMsg
  exact append_ne_of_take_ne _ _ _ 1 (by decide) (by decide)

theorem mlFactorsMsg_ne_suspiciousVmMsg (fs : List String) (n : ℤ) :
    mlFactorsMsg fs ≠ suspiciousVmMsg n := by
  unfold mlFactorsMsg suspiciousVmMsg
  exact append_ne_append_of_take_ne _ _ _ _ 1 (by decide) (by decide) (by decide)

theorem mlFactorsMsg_ne_elevatedVmMsg (fs : List String) (n : ℤ) :
    mlFactorsMsg fs ≠ elevatedVmMsg n := by
  unfold mlFactorsMsg elevatedVmMsg
  exact append_ne_append_of_take_ne _ _ _ _ 1 (by decide) (by decide) (by decide)

theorem mlFactorsMsg_ne_resourceMsg (fs : List String) :
    mlFactorsMsg fs ≠ resourceMsg := by
  unfold mlFactorsMsg resourceMsg
  exact append_ne_of_take_ne _ _ _ 1 (by decide) (by decide)

theorem mlFactorsMsg_ne_unusualHoursMsg (fs : List String) (t : String) :
    mlFactorsMsg fs ≠ unusualHoursMsg t := by
  unfold mlFactorsMsg unusualHoursMsg
  exact append_ne_append_of_take_ne _ _ _ _ 1 (by decide) (by decide) (by decide)

theorem mlFactorsMsg_ne_behavioralMsg (fs : List String) :
    mlFactorsMsg fs ≠ behavioralMsg := by
  unfold mlFactorsMsg behavioralMsg
  exact append_ne_of_take_ne _ _ _ 1 (by decide) (by decide)

theorem mlFactorsMsg_ne_minorIndicatorsMsg (fs : List String) :
    mlFactorsMsg fs ≠ minorIndicatorsMsg := by
  unfold mlFactorsMsg minorIndicatorsMsg
  exact append_ne_of_take_ne _ _ _ 1 (by decide) (by decide)

/-- Splitting a non-membership over the seven appended check segments. -/
theorem not_mem_explanations {x : String} {l1 l2 l3 l4 l5 l6 l7 : List String}
    (n1 : x ∉ l1) (n2 : x ∉ l2) (n3 : x ∉ l3) (n4 : x ∉ l4) (n5 : x ∉ l5)
    (n6 : x ∉ l6) (n7 : x ∉ l7) :
    x ∉ l1 ++ l2 ++ l3 ++ l4 ++ l5 ++ l6 ++ l7 := by
  simp only [List.mem_append, not_or]
  exact ⟨⟨⟨⟨⟨⟨n1, n2⟩, n3⟩, n4⟩, n5⟩, n6⟩, n7⟩

/-- C7: the explanation list is the in-order concatenation of the check 1-7
segments (each contributing at most one message); `failed >= 5` yields the
multiple-failures message and excludes the elevated variant from the whole
list; `vm >= 10` yields the suspicious-VM message and excludes the
elevated-VM variant; and the combined ML message is present iff
`top_features` is supplied and one of its first three entries has importance
above 0.5, listing exactly the humanized filtered names. -/
theorem C7_explainer_order_precedence_ml (log : LogData)
    (tf : Option (List (String × ℚ))) (tm : List String)
    (htm : timeMsgs log = some tm) :
    ∃ l, generate_explanation log tf = some l ∧
      (locationMsgs log).length ≤ 1 ∧ (failedMsgs log).length ≤ 1 ∧
      (privilegeMsgs log).length ≤ 1 ∧ (vmMsgs log).length ≤ 1 ∧
      (resourceMsgs log).length ≤ 1 ∧ tm.length ≤ 1 ∧ (mlMsgs tf).length ≤ 1 ∧
      (locationMsgs log ++ failedMsgs log ++ privilegeMsgs log ++ vmMsgs log ++
          resourceMsgs log ++ tm ++ mlMsgs tf ≠ [] →
        l = locationMsgs log ++ failedMsgs log ++ privilegeMsgs log ++
          vmMsgs log ++ resourceMsgs log ++ tm ++ mlMsgs tf) ∧
      (5 ≤ log.failed_login_attempts →
        multipleFailedMsg log.failed_login_attempts ∈ l ∧
        elevatedFailedMsg log.failed_login_attempts ∉ l) ∧
      (10 ≤ log.vm_creation_count →
        suspiciousVmMsg log.vm_creation_count ∈ l ∧
        elevatedVmMsg log.vm_creation_count ∉ l) ∧
      (mlFactorsMsg (mlFactors tf) ∈ l ↔ mlFactors tf ≠ []) ∧
      (mlFactors tf ≠ [] ↔
        ∃ fl, tf = some fl ∧ ∃ p ∈ fl.take 3, (0.5 : ℚ) < p.2) := by
  have htm2 : tm = [] ∨ tm = [unusualHoursMsg log.login_time] := by
    unfold timeMsgs at htm
    split_ifs at htm with h0
    · exact Or.inl (Option.some.inj htm).symm
    · cases hph : parseHourPrefix log.login_time with
      | none => rw [hph] at htm; cases htm
      | some hour =>
        rw [hph] at htm
        have h2 := (Option.some.inj htm).symm
        by_cases hc : hour < 6 ∨ hour > 22
        · exact Or.inr (by rw [h2, if_pos hc])
        · exact Or.inl (by rw [h2, if_neg hc])
  unfold generate_explanation
  rw [htm]
  refine ⟨_, rfl, ?_, ?_, ?_, ?_, ?_, ?_, ?_, ?_, ?_, ?_, ?_, ?_⟩
  · unfold locationMsgs
    split_ifs <;> simp
  · unfold failedMsgs
    split_ifs <;> simp
  · unfold privilegeMsgs
    split_ifs <;> simp
  · unfold vmMsgs
    split_ifs <;> simp
  · unfold resourceMsgs
    split_ifs <;> simp
  · rcases htm2 with h | h <;> rw [h] <;> simp
  · unfold mlMsgs
    cases mlFactors tf <;> simp
  · intro hne
    exact if_neg hne
  · intro h5
    have hfm : failedMsgs log = [multipleFailedMsg log.failed_login_attempts] := by
      unfold failedMsgs
      rw [if_pos h5]
    have hne : locationMsgs log ++ failedMsgs log ++ privilegeMsgs log ++
        vmMsgs log ++ resourceMsgs log ++ tm ++ mlMsgs tf ≠ [] := by
      intro hc
      rw [hfm] at hc
      simp at hc
    rw [if_neg hne]
    constructor
    · rw [hfm]
      simp
    · refine not_mem_explanations ?_ ?_ ?_ ?_ ?_ ?_ ?_
      · unfold locationMsgs
        exact not_mem_ite_singleton (elevatedFailedMsg_ne_locationMsg _ _)
      · rw [hfm]
        simp only [List.mem_singleton]
        exact elevatedFailedMsg_ne_multipleFailedMsg _ _
      · unfold privilegeMsgs
        exact not_mem_ite_singleton (elevatedFailedMsg_ne_privilegeMsg _)
      · unfold vmMsgs
        split_ifs
        · simp only [List.mem_singleton]
          exact elevatedFailedMsg_ne_suspiciousVmMsg _ _
        · simp only [List.mem_singleton]
          exact elevatedFailedMsg_ne_elevatedVmMsg _ _
        · simp
      · unfold resourceMsgs
        exact not_mem_ite_singleton (elevatedFailedMsg_ne_resourceMsg _)
      · rcases htm2 with h | h <;> rw [h]
        · simp
        · simp only [List.mem_singleton]
          exact elevatedFailedMsg_ne_unusualHoursMsg _ _
      · unfold mlMsgs
        cases mlFactors tf with
        | nil => simp
        | cons a as =>
          simp only [List.mem_singleton]
          exact elevatedFailedMsg_ne_mlFactorsMsg _ _
  · intro h10
    have hvm : vmMsgs log = [suspiciousVmMsg log.vm_creation_count] := by
      unfold vmMsgs
      rw [if_pos h10]
    have hne : locationMsgs log ++ failedMsgs log ++ privilegeMsgs log ++
        vmMsgs log ++ resourceMsgs log ++ tm ++ mlMsgs tf ≠ [] := by
      intro hc
      rw [hvm] at hc
      simp at hc
    rw [if_neg hne]
    constructor
    · rw [hvm]
      simp
    · refine not_mem_explanations ?_ ?_ ?_ ?_ ?_ ?_ ?_
      · unfold locationMsgs
        exact not_mem_ite_singleton (elevatedVmMsg_ne_locationMsg _ _)
      · unfold failedMsgs
        split_ifs
        · simp only [List.mem_singleton]
          exact elevatedVmMsg_ne_multipleFailedMsg _ _
        · simp only [List.mem_singleton]
          exact elevatedVmMsg_ne_elevatedFailedMsg _ _
        · simp
      · unfold privilegeMsgs
        exact not_mem_ite_singleton (elevatedVmMsg_ne_privilegeMsg _)
      · rw [hvm]
        simp only [List.mem_singleton]
        exact elevatedVmMsg_ne_suspiciousVmMsg _ _
      · unfold resourceMsgs
        exact not_mem_ite_singleton (elevatedVmMsg_ne_resourceMsg _)
      · rcases htm2 with h | h <;> rw [h]
        · simp
        · simp only [List.mem_singleton]
          exact elevatedVmMsg_ne_unusualHoursMsg _ _
      · unfold mlMsgs
        cases mlFactors tf with
        | nil => simp
        | cons a as =>
          simp only [List.mem_singleton]
          exact elevatedVmMsg_ne_mlFactorsMsg _ _
  · constructor
    · intro hmem
      by_contra hnil
      have hml7 : mlMsgs tf = [] := by
        unfold mlMsgs
        rw [hnil]
      revert hmem
      split_ifs with he
      · intro hmem
        rw [List.mem_singleton] at hmem
        unfold fallbackMsg at hmem
        split_ifs at hmem
        · exact mlFactorsMsg_ne_behavioralMsg _ hmem
        · exact mlFactorsMsg_ne_minorIndicatorsMsg _ hmem
      · intro hmem
        refine not_mem_explanations ?_ ?_ ?_ ?_ ?_ ?_ ?_ hmem
        · unfold locationMsgs
          exact not_mem_ite_singleton (mlFactorsMsg_ne_locationMsg _ _)
        · unfold failedMsgs
          split_ifs
          · simp only [List.mem_singleton]
            exact mlFactorsMsg_ne_multipleFailedMsg _ _
          · simp only [List.mem_singleton]
            exact mlFactorsMsg_ne_elevatedFailedMsg _ _
          · simp
        · unfold privilegeMsgs
          exact not_mem_ite_singleton (mlFactorsMsg_ne_privilegeMsg _)
        · unfold vmMsgs
          split_ifs
          · simp only [List.mem_singleton]
            exact mlFactorsMsg_ne_suspiciousVmMsg _ _
          · simp only [List.mem_singleton]
            exact mlFactorsMsg_ne_elevatedVmMsg _ _
          · simp
        · unfold resourceMsgs
          exact not_mem_ite_singleton (mlFactorsMsg_ne_resourceMsg _)
        · rcases htm2 with h | h <;> rw [h]
          · simp
          · simp only [List.mem_singleton]
            exact mlFactorsMsg_ne_unusualHoursMsg _ _
        · rw [hml7]
          simp
    · intro hnil
      have hmsgs : mlMsgs tf = [mlFactorsMsg (mlFactors tf)] := by
        unfold mlMsgs
        cases hm : mlFactors tf with
        | nil => exact absurd hm hnil
        | cons a as => rfl
      have hne : locationMsgs log ++ failedMsgs log ++ privilegeMsgs log ++
          vmMsgs log ++ resourceMsgs log ++ tm ++ mlMsgs tf ≠ [] := by
        intro hc
        rw [hmsgs] at hc
        simp at hc
      rw [if_neg hne, hmsgs]
      simp
  · cases tf with
    | none => simp [mlFactors]
    | some fl =>
      cases fl with
      | nil => simp [mlFactors]
      | cons x xs =>
        constructor
        · intro hne
          refine ⟨x :: xs, rfl, ?_⟩
          by_contra hc
          push_neg at hc
          apply hne
          simp only [mlFactors]
          rw [List.map_eq_nil, List.filter_eq_nil]
          intro p hp
          simp only [decide_eq_true_eq]
          exact not_lt.mpr (hc p hp)
        · rintro ⟨fl', hfl', p, hp, hgt⟩
          have hfl : fl' = x :: xs := (Option.some.inj hfl').symm
          subst hfl
          intro hc
          simp only [mlFactors] at hc
          rw [List.map_eq_nil, List.filter_eq_nil] at hc
          have h3 := hc p hp
          simp only [decide_eq_true_eq] at h3
          exact h3 hgt

/-- Concrete record used to instantiate C7: night login, 7 failed attempts,
high resource access, 11 VMs, privilege change. -/
def wLog7 : LogData := ⟨"u2", "Office", "02:30", 7, "high", 11, true, 0.9⟩

/-- Concrete `top_features` used to instantiate C7. -/
def wTF7 : Option (List (String × ℚ)) := some [("failed_login_attempts", 0.9)]

/-- Witness for C7 at a concrete record and feature list. -/
theorem C7_explainer_order_precedence_ml_witness :
    ∃ l, generate_explanation wLog7 wTF7 = some l ∧
      (locationMsgs wLog7).length ≤ 1 ∧ (failedMsgs wLog7).length ≤ 1 ∧
      (privilegeMsgs wLog7).length ≤ 1 ∧ (vmMsgs wLog7).length ≤ 1 ∧
      (resourceMsgs wLog7).length ≤ 1 ∧
      ([unusualHoursMsg "02:30"] : List String).length ≤ 1 ∧
      (mlMsgs wTF7).length ≤ 1 ∧
      (locationMsgs wLog7 ++ failedMsgs wLog7 ++ privilegeMsgs wLog7 ++
          vmMsgs wLog7 ++ resourceMsgs wLog7 ++ [unusualHoursMsg "02:30"] ++
          mlMsgs wTF7 ≠ [] →
        l = locationMsgs wLog7 ++ failedMsgs wLog7 ++ privilegeMsgs wLog7 ++
          vmMsgs wLog7 ++ resourceMsgs wLog7 ++ [unusualHoursMsg "02:30"] ++
          mlMsgs wTF7) ∧
      (5 ≤ (7 : ℤ) → multipleFailedMsg 7 ∈ l ∧ elevatedFailedMsg 7 ∉ l) ∧
      (10 ≤ (11 : ℤ) → suspiciousVmMsg 11 ∈ l ∧ elevatedVmMsg 11 ∉ l) ∧
      (mlFactorsMsg (mlFactors wTF7) ∈ l ↔ mlFactors wTF7 ≠ []) ∧
      (mlFactors wTF7 ≠ [] ↔
        ∃ fl, wTF7 = some fl ∧ ∃ p ∈ fl.take 3, (0.5 : ℚ) < p.2) :=
  C7_explainer_order_precedence_ml wLog7 wTF7 [unusualHoursMsg "02:30"] (by decide)

/-! ## ML model (`ml_model.py`) -/

/-- The opaque fitted scikit-learn `IsolationForest` held in
`self.model`.  Its two per-row operations, `decision_function` and
`predict`, are row-wise maps on the preprocessed feature matrix; they are
modelled as abstract per-row functions on feature vectors. -/
structure IFModel where
  decision : List ℚ → ℚ
  predictRow : List ℚ → ℤ

/-- `raw_scores.min()` (ml_model.py line 176) on a non-empty batch. -/
def listMin : List ℚ → ℚ
  | [] => 0
  | h :: t => t.foldl min h

/-- `raw_scores.max()` (ml_model.py line 177) on a non-empty batch. -/
def listMax : List ℚ → ℚ
  | [] => 0
  | h :: t => t.foldl max h

theorem foldl_min_le_init : ∀ (t : List ℚ) (a : ℚ), t.foldl min a ≤ a
  | [], _ => le_rfl
  | b :: t, a => le_trans (foldl_min_le_init t (min a b)) (min_le_left a b)

theorem foldl_min_le_mem : ∀ (t : List ℚ) (a x : ℚ), x ∈ t → t.foldl min a ≤ x := by
  intro t
  induction t with
  | nil => intro a x hx; cases hx
  | cons b t ih =>
    intro a x hx
    rcases List.mem_cons.mp hx with h | h
    · subst h
      exact le_trans (foldl_min_le_init t (min a x)) (min_le_right a x)
    · exact ih (min a b) x h

theorem listMin_le_of_mem {l : List ℚ} {x : ℚ} (h : x ∈ l) : listMin l ≤ x := by
  cases l with
  | nil => cases h
  | cons a t =>
    rcases List.mem_cons.mp h with h1 | h1
    · subst h1
      exact foldl_min_le_init t x
    · exact foldl_min_le_mem t a x h1

theorem init_le_foldl_max : ∀ (t : List ℚ) (a : ℚ), a ≤ t.foldl max a
  | [], _ => le_rfl
  | b :: t, a => le_trans (le_max_left a b) (init_le_foldl_max t (max a b))

theorem mem_le_foldl_max : ∀ (t : List ℚ) (a x : ℚ), x ∈ t → x ≤ t.foldl max a := by
  intro t
  induction t with
  | nil => intro a x hx; cases hx
  | cons b t ih =>
    intro a x hx
    rcases List.mem_cons.mp hx with h | h
    · subst h
      exact le_trans (le_max_right a x) (init_le_foldl_max t (max a x))
    · exact ih (max a b) x h

theorem le_listMax_of_mem {l : List ℚ} {x : ℚ} (h : x ∈ l) : x ≤ listMax l := by
  cases l with
  | nil => cases h
  | cons a t =>
    rcases List.mem_cons.mp h with h1 | h1
    · subst h1
      exact init_le_foldl_max t x
    · exact mem_le_foldl_max t a x h1

/-- ml_model.py lines 176-184: min-max normalization of the raw
`decision_function` signal over the scored batch, inverted so that higher
means more anomalous; all zeros on a zero-variance batch. -/
def anomalyScores (m : IFModel) (X : List (List ℚ)) : List ℚ :=
  if listMax (X.map m.decision) - listMin (X.map m.decision) > 0 then
    (X.map m.decision).map (fun r =>
      1 - (r - listMin (X.map m.decision)) /
        (listMax (X.map m.decision) - listMin (X.map m.decision)))
  else
    (X.map m.decision).map (fun _ => (0 : ℚ))

/-- ml_model.py lines 167-192: anomaly scores zipped with the boolean
`pred == -1` classification from the model's per-row `predict`. -/
def predictScores (m : IFModel) (X : List (List ℚ)) : List (ℚ × Bool) :=
  ((anomalyScores m X).zip (X.map m.predictRow)).map (fun p => (p.1, p.2 == -1))

theorem zip_getElem?_some {α β : Type} :
    ∀ (l₁ : List α) (l₂ : List β) (i : ℕ) (a : α) (b : β),
      (l₁.zip l₂)[i]? = some (a, b) → l₁[i]? = some a ∧ l₂[i]? = some b := by
  intro l₁
  induction l₁ with
  | nil => intro l₂ i a b h; simp at h
  | cons x xs ih =>
    intro l₂ i a b h
    cases l₂ with
    | nil => simp at h
    | cons y ys =>
      cases i with
      | zero =>
        simp only [List.zip_cons_cons, List.getElem?_cons_zero, Option.some.injEq,
          Prod.mk.injEq] at h
        obtain ⟨h1, h2⟩ := h
        subst h1
        subst h2
        exact ⟨by simp, by simp⟩
      | succ n =>
        rw [List.zip_cons_cons, List.getElem?_cons_succ] at h
        rw [List.getElem?_cons_succ, List.getElem?_cons_succ]
        exact ih ys n a b h

/-- Inversion of `predictScores` at an index: the entry comes from the
row at the same index, with the batch-normalized score and the row-wise
boolean. -/
theorem predictScores_getElem?_inv (m : IFModel) (X : List (List ℚ)) (i : ℕ)
    (p : ℚ × Bool) (hp : (predictScores m X)[i]? = some p) :
    ∃ v, X[i]? = some v ∧ p.2 = (m.predictRow v == -1) ∧
      p.1 = (if listMax (X.map m.decision) - listMin (X.map m.decision) > 0
        then 1 - (m.decision v - listMin (X.map m.decision)) /
          (listMax (X.map m.decision) - listMin (X.map m.decision))
        else 0) := by
  unfold predictScores at hp
  rw [List.getElem?_map] at hp
  obtain ⟨⟨s, pr⟩, hq, hf⟩ := Option.map_eq_some'.mp hp
  obtain ⟨hA, hP⟩ := zip_getElem?_some _ _ _ _ _ hq
  rw [List.getElem?_map] at hP
  obtain ⟨v, hv, hpr⟩ := Option.map_eq_some'.mp hP
  refine ⟨v, hv, ?_, ?_⟩
  · rw [← hf, ← hpr]
  · unfold anomalyScores at hA
    split_ifs at hA with hvar
    · rw [List.getElem?_map, List.getElem?_map, hv] at hA
      have hs : s = 1 - (m.decision v - listMin (X.map m.decision)) /
          (listMax (X.map m.decision) - listMin (X.map m.decision)) :=
        (Option.some.inj hA).symm
      rw [← hf, if_pos hvar]
      exact hs
    · rw [List.getElem?_map, List.getElem?_map, hv] at hA
      have hs : s = 0 := (Option.some.inj hA).symm
      rw [← hf, if_neg hvar]
      exact hs

/-- C5: every anomaly score produced by `predict` is in `[0,1]` and equals
1 minus the min-max normalization of that row's raw `decision_function`
signal over the batch; on a positive-variance batch the minimal raw signal
(most anomalous under the isolation-forest sign convention) gets score 1
and the maximal raw signal gets score 0; on a zero-variance batch every
score is 0. -/
theorem C5_anomaly_score_minmax_normalized (m : IFModel) (X : List (List ℚ))
    (i : ℕ) (p : ℚ × Bool) (hp : (predictScores m X)[i]? = some p) :
    0 ≤ p.1 ∧ p.1 ≤ 1 ∧
    ∃ v, X[i]? = some v ∧
      p.1 = (if listMax (X.map m.decision) - listMin (X.map m.decision) > 0
        then 1 - (m.decision v - listMin (X.map m.decision)) /
          (listMax (X.map m.decision) - listMin (X.map m.decision))
        else 0) ∧
      (listMax (X.map m.decision) - listMin (X.map m.decision) > 0 →
        (m.decision v = listMin (X.map m.decision) → p.1 = 1) ∧
        (m.decision v = listMax (X.map m.decision) → p.1 = 0)) ∧
      (listMin (X.map m.decision) = listMax (X.map m.decision) → p.1 = 0) := by
  obtain ⟨v, hv, hb, hs⟩ := predictScores_getElem?_inv m X i p hp
  have hmem : m.decision v ∈ X.map m.decision := by
    have : (X.map m.decision)[i]? = some (m.decision v) := by
      rw [List.getElem?_map, hv]
      rfl
    exact List.getElem?_mem this
  have hmn : listMin (X.map m.decision) ≤ m.decision v := listMin_le_of_mem hmem
  have hmx : m.decision v ≤ listMax (X.map m.decision) := le_listMax_of_mem hmem
  refine ⟨?_, ?_, v, hv, hs, ?_, ?_⟩
  · rw [hs]
    split_ifs with hvar
    · have hd : (m.decision v - listMin (X.map m.decision)) /
          (listMax (X.map m.decision) - listMin (X.map m.decision)) ≤ 1 := by
        rw [div_le_one hvar]
        linarith
      linarith
    · exact le_refl 0
  · rw [hs]
    split_ifs with hvar
    · have hd : 0 ≤ (m.decision v - listMin (X.map m.decision)) /
          (listMax (X.map m.decision) - listMin (X.map m.decision)) :=
        div_nonneg (by linarith) (le_of_lt hvar)
      linarith
    · norm_num
  · intro hvar
    constructor
    · intro hlo
      rw [hs, if_pos hvar, hlo]
      simp
    · intro hhi
      rw [hs, if_pos hvar, hhi]
      rw [div_self (ne_of_gt hvar)]
      ring
  · intro heq
    rw [hs, if_neg (by rw [heq]; simp)]

/-- Simple concrete model used by witnesses. -/
def wM : IFModel := ⟨fun v => v.headD 0, fun _ => 1⟩

/-- Witness for C5 on the two-row batch `[[1], [3]]` at index 0. -/
theorem C5_anomaly_score_minmax_normalized_witness :
    0 ≤ ((1 : ℚ), false).1 ∧ ((1 : ℚ), false).1 ≤ 1 ∧
    ∃ v, ([[(1 : ℚ)], [3]] : List (List ℚ))[0]? = some v ∧
      ((1 : ℚ), false).1 =
        (if listMax ([[(1 : ℚ)], [3]].map wM.decision) -
            listMin ([[(1 : ℚ)], [3]].map wM.decision) > 0
          then 1 - (wM.decision v - listMin ([[(1 : ℚ)], [3]].map wM.decision)) /
            (listMax ([[(1 : ℚ)], [3]].map wM.decision) -
              listMin ([[(1 : ℚ)], [3]].map wM.decision))
          else 0) ∧
      (listMax ([[(1 : ℚ)], [3]].map wM.decision) -
          listMin ([[(1 : ℚ)], [3]].map wM.decision) > 0 →
        (wM.decision v = listMin ([[(1 : ℚ)], [3]].map wM.decision) →
          ((1 : ℚ), false).1 = 1) ∧
        (wM.decision v = listMax ([[(1 : ℚ)], [3]].map wM.decision) →
          ((1 : ℚ), false).1 = 0)) ∧
      (listMin ([[(1 : ℚ)], [3]].map wM.decision) =
          listMax ([[(1 : ℚ)], [3]].map wM.decision) → ((1 : ℚ), false).1 = 0) :=
  C5_anomaly_score_minmax_normalized wM [[1], [3]] 0 (1, false)
    (by simp [predictScores, anomalyScores, wM, listMin, listMax, min_def, max_def])

/-- The fitted `LabelEncoder` for `login_location`: `classes_` is the sorted
list of distinct locations seen during fit. -/
structure LabelEnc where
  classes : List String

/-- `LabelEncoder.transform([x])[0]`: position of `x` in `classes_`; raises
(`none`) on an unseen label. -/
def labelTransform (enc : LabelEnc) (x : String) : Option ℤ :=
  if x ∈ enc.classes then some ((enc.classes.indexOf x : ℕ) : ℤ) else none

/-- The guarded lambda of ml_model.py lines 77-81: transform seen locations,
map unseen locations to the sentinel `-1`. -/
def location_encoded (enc : LabelEnc) (x : String) : Option ℤ :=
  if x ∈ enc.classes then labelTransform enc x else some (-1)

/-- `resource_mapping` (ml_model.py lines 69-70); an unrecognized level maps
to NaN in pandas, modelled as `none`. -/
def resource_mapping (s : String) : Option ℚ :=
  if s = "low" then some 0
  else if s = "medium" then some 1
  else if s = "high" then some 2
  else none

/-- Digits-only parse of a char group, `none` when empty or non-numeric. -/
def digitsOnly (ds : List Char) : Option ℕ :=
  if ds = [] then none else digitsValAux ds 0

/-- `pd.to_datetime(login_time, format='%H:%M').dt.hour` (ml_model.py line
66): parse `HH:MM`, raising (`none`) on malformed input. -/
def parseHHMM (s : String) : Option ℕ :=
  match splitOnChar ':' s.data with
  | [hh, mm] =>
    match digitsOnly hh, digitsOnly mm with
    | some h, some m => if h < 24 ∧ m < 60 then some h else none
    | _, _ => none
  | _ => none

/-- The fitted `StandardScaler`: per-feature means and scales. -/
structure Scaler where
  mean : List ℚ
  scale : List ℚ

/-- `StandardScaler.transform` on one row: `(x - mean) / scale`
columnwise. -/
def scaleRow (sc : Scaler) (xs : List ℚ) : List ℚ :=
  (xs.zip (sc.mean.zip sc.scale)).map (fun p => (p.1 - p.2.1) / p.2.2)

/-- `df['user_id'].value_counts()` lookup (ml_model.py lines 49-50): number
of records in the current batch with this record's user id. -/
def login_frequency (logs : List LogData) (r : LogData) : ℕ :=
  (logs.filter (fun l => l.user_id = r.user_id)).length

/-- One row of the engineered feature matrix, in the `feature_cols` order of
ml_model.py lines 84-94; `none` models a raised parse error. -/
def featureRow (enc : LabelEnc) (logs : List LogData) (r : LogData) :
    Option (List ℚ) :=
  match parseHHMM r.login_time, resource_mapping r.resource_access_level,
      location_encoded enc r.login_location with
  | some hour, some res, some loc =>
    some [(r.failed_login_attempts : ℚ), (r.vm_creation_count : ℚ),
      (login_frequency logs r : ℚ),
      (if r.login_location ∈ unusual_locations then 1 else 0),
      (if r.privilege_change then 1 else 0),
      0.3 * (r.failed_login_attempts : ℚ) + 0.7 * (r.vm_creation_count : ℚ),
      (hour : ℚ), res, (loc : ℚ)]
  | _, _, _ => none

/-- Row-wise effectful map; the whole batch fails if any row fails, as a
raised exception aborts the pandas column operations. -/
def mapOpt {α β : Type} (f : α → Option β) : List α → Option (List β)
  | [] => some []
  | a :: as =>
    match f a, mapOpt f as with
    | some b, some bs => some (b :: bs)
    | _, _ => none

/-- `preprocess_data(logs, fit=False)` (ml_model.py lines 29-105): engineered
feature rows followed by the fitted scaler transform. -/
def preprocess_transform (enc : LabelEnc) (sc : Scaler) (logs : List LogData) :
    Option (List (List ℚ)) :=
  (mapOpt (featureRow enc logs) logs).map (fun rows => rows.map (scaleRow sc))

theorem mapOpt_isSome {α β : Type} (f : α → Option β) :
    ∀ xs : List α, (∀ a ∈ xs, (f a).isSome) →
      ∃ ys, mapOpt f xs = some ys ∧ ys.length = xs.length := by
  intro xs
  induction xs with
  | nil => intro _; exact ⟨[], rfl, rfl⟩
  | cons a as ih =>
    intro hall
    obtain ⟨b, hb⟩ := Option.isSome_iff_exists.mp (hall a (List.mem_cons_self a as))
    obtain ⟨bs, hbs, hlen⟩ := ih (fun x hx => hall x (List.mem_cons_of_mem a hx))
    refine ⟨b :: bs, ?_, by simp [hlen]⟩
    unfold mapOpt
    rw [hb, hbs]

theorem mapOpt_getElem? {α β : Type} (f : α → Option β) :
    ∀ (xs : List α) (ys : List β), mapOpt f xs = some ys →
      ∀ i : ℕ, ys[i]? = (xs[i]?).bind f := by
  intro xs
  induction xs with
  | nil =>
    intro ys h i
    obtain rfl : ([] : List β) = ys := Option.some.inj h
    simp
  | cons a as ih =>
    intro ys h i
    unfold mapOpt at h
    cases hfa : f a with
    | none => rw [hfa] at h; cases h
    | some b =>
      rw [hfa] at h
      cases hmo : mapOpt f as with
      | none => rw [hmo] at h; cases h
      | some bs =>
        rw [hmo] at h
        obtain rfl : b :: bs = ys := Option.some.inj h
        cases i with
        | zero => simp [hfa]
        | succ n => simp only [List.getElem?_cons_succ]; exact ih bs hmo n

/-- C9: on the transform (non-fit) path, an unseen `login_location` is
encoded as the sentinel `-1` (a seen one as its fitted dense code), and
preprocessing including the scaler transform succeeds on every batch whose
records have parsable times and recognized resource levels. -/
theorem C9_unseen_location_sentinel (enc : LabelEnc) (sc : Scaler)
    (logs : List LogData) (r : LogData) (hmem : r ∈ logs)
    (hvalid : ∀ l ∈ logs, (parseHHMM l.login_time).isSome ∧
      (resource_mapping l.resource_access_level).isSome) :
    (r.login_location ∉ enc.classes →
      location_encoded enc r.login_location = some (-1)) ∧
    (r.login_location ∈ enc.classes →
      location_encoded enc r.login_location =
        some ((enc.classes.indexOf r.login_location : ℕ) : ℤ)) ∧
    ∃ rows, preprocess_transform enc sc logs = some rows ∧
      rows.length = logs.length := by
  refine ⟨?_, ?_, ?_⟩
  · intro h
    unfold location_encoded
    rw [if_neg h]
  · intro h
    unfold location_encoded labelTransform
    rw [if_pos h, if_pos h]
  · have hall : ∀ l ∈ logs, (featureRow enc logs l).isSome := by
      intro l hl
      obtain ⟨ht, hr⟩ := hvalid l hl
      obtain ⟨hour, e1⟩ := Option.isSome_iff_exists.mp ht
      obtain ⟨res, e2⟩ := Option.isSome_iff_exists.mp hr
      have hloc : ∃ c, location_encoded enc l.login_location = some c := by
        unfold location_encoded labelTransform
        split_ifs with h
        · exact ⟨_, rfl⟩
        · exact ⟨_, rfl⟩
      obtain ⟨c, e3⟩ := hloc
      unfold featureRow
      rw [e1, e2, e3]
      rfl
    obtain ⟨frs, hmo, hlen⟩ := mapOpt_isSome _ logs hall
    refine ⟨frs.map (scaleRow sc), ?_, by simp [hlen]⟩
    unfold preprocess_transform
    rw [hmo]
    rfl

/-- Record used to instantiate C9: its location `"Tokyo"` is not among the
fitted classes. -/
def wLog9 : LogData := ⟨"u1", "Tokyo", "09:30", 2, "low", 0, false, 0⟩

/-- Fitted location classes used to instantiate C9. -/
def wEnc9 : LabelEnc := ⟨["London", "Paris"]⟩

/-- Fitted scaler used to instantiate C9. -/
def wSc9 : Scaler := ⟨[0, 0, 0, 0, 0, 0, 0, 0, 0], [1, 1, 1, 1, 1, 1, 1, 1, 1]⟩

/-- Witness for C9 on a one-record batch with an unseen location. -/
theorem C9_unseen_location_sentinel_witness :
    (("Tokyo" : String) ∉ wEnc9.classes →
      location_encoded wEnc9 "Tokyo" = some (-1)) ∧
    (("Tokyo" : String) ∈ wEnc9.classes →
      location_encoded wEnc9 "Tokyo" =
        some ((wEnc9.classes.indexOf "Tokyo" : ℕ) : ℤ)) ∧
    ∃ rows, preprocess_transform wEnc9 wSc9 [wLog9] = some rows ∧
      rows.length = [wLog9].length :=
  C9_unseen_location_sentinel wEnc9 wSc9 [wLog9] wLog9 (by decide) (by decide)

/-- `predict` applied after `preprocess_data(logs, fit=False)` (ml_model.py
lines 147-192), as one pipeline over raw records. -/
def model_predict_pipeline (enc : LabelEnc) (sc : Scaler) (m : IFModel)
    (logs : List LogData) : Option (List (ℚ × Bool)) :=
  (preprocess_transform enc sc logs).map (predictScores m)

/-- `featureRow` depends on the surrounding batch only through the
batch-relative `login_frequency` count. -/
theorem featureRow_freq_eq (enc : LabelEnc) (logs₁ logs₂ : List LogData)
    (r : LogData) (hfreq : login_frequency logs₁ r = login_frequency logs₂ r) :
    featureRow enc logs₁ r = featureRow enc logs₂ r := by
  unfold featureRow
  rw [hfreq]

/-- Trained-model state used in the C6 counterexample: the per-row boolean
flags rows whose third feature (the scaled `login_frequency`) is at least
2.  An isolation forest fitted on data varying in that feature can behave
this way, since `login_frequency` is one of its nine input features. -/
def cModel6 : IFModel :=
  ⟨fun v => v.headD 0, fun v => if (2 : ℚ) ≤ (v[2]?.getD 0) then (-1 : ℤ) else 1⟩

/-- Record used in the C6 counterexample. -/
def cRec6 : LogData := ⟨"u1", "Paris", "10:00", 0, "low", 0, false, 0⟩

/-- Second record (different user) used in the C6 amended witness. -/
def cRec6b : LogData := ⟨"u2", "Paris", "10:00", 0, "low", 0, false, 0⟩

/-- Encoder state used in the C6 counterexample. -/
def cEnc6 : LabelEnc := ⟨[]⟩

/-- Identity scaler used in the C6 counterexample. -/
def cSc6 : Scaler := ⟨[0, 0, 0, 0, 0, 0, 0, 0, 0], [1, 1, 1, 1, 1, 1, 1, 1, 1]⟩

theorem featureRow_cRec6_single :
    featureRow cEnc6 [cRec6] cRec6 = some [0, 0, 1, 0, 0, 0, 10, 0, -1] := by
  have hp : parseHHMM cRec6.login_time = some 10 := by decide
  have hr : resource_mapping cRec6.resource_access_level = some 0 := by decide
  have hl : location_encoded cEnc6 cRec6.login_location = some (-1) := by decide
  have hf : login_frequency [cRec6] cRec6 = 1 := by decide
  have hu : (cRec6.login_location ∈ unusual_locations) = False := by decide
  have h1 : cRec6.failed_login_attempts = 0 := rfl
  have h2 : cRec6.vm_creation_count = 0 := rfl
  have h3 : cRec6.privilege_change = false := rfl
  norm_num [featureRow, hp, hr, hl, hf, hu, h1, h2, h3]

theorem featureRow_cRec6_double :
    featureRow cEnc6 [cRec6, cRec6] cRec6 = some [0, 0, 2, 0, 0, 0, 10, 0, -1] := by
  have hp : parseHHMM cRec6.login_time = some 10 := by decide
  have hr : resource_mapping cRec6.resource_access_level = some 0 := by decide
  have hl : location_encoded cEnc6 cRec6.login_location = some (-1) := by decide
  have hf : login_frequency [cRec6, cRec6] cRec6 = 2 := by decide
  have hu : (cRec6.login_location ∈ unusual_locations) = False := by decide
  have h1 : cRec6.failed_login_attempts = 0 := rfl
  have h2 : cRec6.vm_creation_count = 0 := rfl
  have h3 : cRec6.privilege_change = false := rfl
  norm_num [featureRow, hp, hr, hl, hf, hu, h1, h2, h3]

/-- C6 fails as stated: the boolean classification is computed row-wise from
the model, but the feature row itself depends on the batch through the
batch-relative `login_frequency` feature, so the same raw record can get
`is_anomaly = false` when scored alone and `is_anomaly = true` when scored
in a batch with another record of the same user. -/
theorem C6_counterexample_batch_dependent_is_anomaly :
    (model_predict_pipeline cEnc6 cSc6 cModel6 [cRec6]).map
        (fun l => l.map Prod.snd) = some [false] ∧
    (model_predict_pipeline cEnc6 cSc6 cModel6 [cRec6, cRec6]).map
        (fun l => l.map Prod.snd) = some [true, true] := by
  constructor
  · norm_num [model_predict_pipeline, preprocess_transform, mapOpt,
      featureRow_cRec6_single, scaleRow, cSc6, predictScores, anomalyScores,
      cModel6, listMin, listMax]
  · norm_num [model_predict_pipeline, preprocess_transform, mapOpt,
      featureRow_cRec6_double, scaleRow, cSc6, predictScores, anomalyScores,
      cModel6, listMin, listMax]

/-- C6 (amended): `is_anomaly` is computed row-wise from the trained model's
raw per-row signal and never from the batch-relative normalized score: for
one trained model, any two scored batches containing the same record — with
the same same-user count, so that the batch-relative `login_frequency`
feature agrees — assign the record the same `is_anomaly` value, whatever the
other records are. -/
theorem C6_is_anomaly_rowwise_from_raw_signal (enc : LabelEnc) (sc : Scaler)
    (m : IFModel) (logs₁ logs₂ : List LogData) (r : LogData) (i j : ℕ)
    (h₁ : logs₁[i]? = some r) (h₂ : logs₂[j]? = some r)
    (hfreq : login_frequency logs₁ r = login_frequency logs₂ r)
    (out₁ out₂ : List (ℚ × Bool))
    (ho₁ : model_predict_pipeline enc sc m logs₁ = some out₁)
    (ho₂ : model_predict_pipeline enc sc m logs₂ = some out₂)
    (p₁ p₂ : ℚ × Bool) (hp₁ : out₁[i]? = some p₁) (hp₂ : out₂[j]? = some p₂) :
    p₁.2 = p₂.2 := by
  unfold model_predict_pipeline preprocess_transform at ho₁ ho₂
  cases hmo₁ : mapOpt (featureRow enc logs₁) logs₁ with
  | none => rw [hmo₁] at ho₁; cases ho₁
  | some frs₁ =>
    rw [hmo₁] at ho₁
    cases hmo₂ : mapOpt (featureRow enc logs₂) logs₂ with
    | none => rw [hmo₂] at ho₂; cases ho₂
    | some frs₂ =>
      rw [hmo₂] at ho₂
      simp only [Option.map_some'] at ho₁ ho₂
      have e₁ : out₁ = predictScores m (frs₁.map (scaleRow sc)) :=
        (Option.some.inj ho₁).symm
      have e₂ : out₂ = predictScores m (frs₂.map (scaleRow sc)) :=
        (Option.some.inj ho₂).symm
      rw [e₁] at hp₁
      rw [e₂] at hp₂
      obtain ⟨v₁, hv₁, hb₁, -⟩ := predictScores_getElem?_inv m _ i p₁ hp₁
      obtain ⟨v₂, hv₂, hb₂, -⟩ := predictScores_getElem?_inv m _ j p₂ hp₂
      rw [List.getElem?_map] at hv₁ hv₂
      have hfr₁ := mapOpt_getElem? (featureRow enc logs₁) logs₁ frs₁ hmo₁ i
      have hfr₂ := mapOpt_getElem? (featureRow enc logs₂) logs₂ frs₂ hmo₂ j
      rw [h₁] at hfr₁
      rw [h₂] at hfr₂
      rw [show ((some r).bind (featureRow enc logs₁)) = featureRow enc logs₁ r
        from rfl] at hfr₁
      rw [show ((some r).bind (featureRow enc logs₂)) = featureRow enc logs₂ r
        from rfl] at hfr₂
      rw [hfr₁] at hv₁
      rw [hfr₂] at hv₂
      rw [featureRow_freq_eq enc logs₁ logs₂ r hfreq] at hv₁
      rw [hv₁] at hv₂
      have hv : v₁ = v₂ := Option.some.inj hv₂
      rw [hb₁, hb₂, hv]

/-- Witness for the amended C6: the record scored alone and in a two-record
batch with a different user gets the same boolean. -/
theorem C6_is_anomaly_rowwise_from_raw_signal_witness :
    (((0 : ℚ), false) : ℚ × Bool).2 = (((0 : ℚ), false) : ℚ × Bool).2 :=
  C6_is_anomaly_rowwise_from_raw_signal cEnc6 cSc6 cModel6 [cRec6] [cRec6, cRec6b]
    cRec6 0 0 (by decide) (by decide) (by decide)
    [(0, false)] [(0, false), (0, false)]
    (by norm_num [model_predict_pipeline, preprocess_transform, mapOpt,
      featureRow_cRec6_single, scaleRow, cSc6, predictScores, anomalyScores,
      cModel6, listMin, listMax])
    (by
      have hfr : featureRow cEnc6 [cRec6, cRec6b] cRec6 =
          some [0, 0, 1, 0, 0, 0, 10, 0, -1] := by
        have hp : parseHHMM cRec6.login_time = some 10 := by decide
        have hr : resource_mapping cRec6.resource_access_level = some 0 := by decide
        have hl : location_encoded cEnc6 cRec6.login_location = some (-1) := by decide
        have hf : login_frequency [cRec6, cRec6b] cRec6 = 1 := by decide
        have hu : (cRec6.login_location ∈ unusual_locations) = False := by decide
        have h1 : cRec6.failed_login_attempts = 0 := rfl
        have h2 : cRec6.vm_creation_count = 0 := rfl
        have h3 : cRec6.privilege_change = false := rfl
        norm_num [featureRow, hp, hr, hl, hf, hu, h1, h2, h3]
      have hfrb : featureRow cEnc6 [cRec6, cRec6b] cRec6b =
          some [0, 0, 1, 0, 0, 0, 10, 0, -1] := by
        have hp : parseHHMM cRec6b.login_time = some 10 := by decide
        have hr : resource_mapping cRec6b.resource_access_level = some 0 := by decide
        have hl : location_encoded cEnc6 cRec6b.login_location = some (-1) := by decide
        have hf : login_frequency [cRec6, cRec6b] cRec6b = 1 := by decide
        have hu : (cRec6b.login_location ∈ unusual_locations) = False := by decide
        have h1 : cRec6b.failed_login_attempts = 0 := rfl
        have h2 : cRec6b.vm_creation_count = 0 := rfl
        have h3 : cRec6b.privilege_change = false := rfl
        norm_num [featureRow, hp, hr, hl, hf, hu, h1, h2, h3]
      norm_num [model_predict_pipeline, preprocess_transform, mapOpt, hfr, hfrb,
        scaleRow, cSc6, predictScores, anomalyScores, cModel6, listMin, listMax])
    (0, false) (0, false) (by decide) (by decide)

/-- The `CloudSecurityMLModel` instance state that matters to `predict`:
`self.model`, `None` before any successful `train`/`load_model`. -/
structure MLModelState where
  model : Option IFModel

/-- `CloudSecurityMLModel.predict` on preprocessed feature rows (ml_model.py
lines 147-192): raises `ValueError` when `self.model is None`. -/
def predict (s : MLModelState) (X : List (List ℚ)) :
    Except String (List (ℚ × Bool)) :=
  match s.model with
  | none => Except.error "Model not trained. Call train() first or load_model()."
  | some m => Except.ok (predictScores m X)

/-- Effect of `CloudSecurityMLModel.train` on the state (ml_model.py lines
107-145): `self.model` is assigned the fitted estimator (the scikit-learn
fitting itself is opaque and passed in as the resulting `IFModel`). -/
def train (_s : MLModelState) (fitted : IFModel) : MLModelState :=
  { model := some fitted }

/-- C8: calling `predict` before any successful train or load raises the
invalid-state `ValueError` and never returns a result; after `train` it
returns a result (no such error) on any batch. -/
theorem C8_predict_before_training_errors :
    (∀ (s : MLModelState) (X : List (List ℚ)), s.model = none →
      predict s X =
        Except.error "Model not trained. Call train() first or load_model().") ∧
    (∀ (s : MLModelState) (X : List (List ℚ)), s.model = none →
      ∀ out, predict s X ≠ Except.ok out) ∧
    (∀ (s : MLModelState) (f : IFModel) (X : List (List ℚ)),
      predict (train s f) X = Except.ok (predictScores f X)) := by
  refine ⟨?_, ?_, ?_⟩
  · intro s X h
    unfold predict
    rw [h]
  · intro s X h out
    unfold predict
    rw [h]
    intro hc
    cases hc
  · intro s f X
    rfl

/-- Witness for C8 on the empty state and a trained state. -/
theorem C8_predict_before_training_errors_witness :
    predict ⟨none⟩ [] =
      Except.error "Model not trained. Call train() first or load_model()." ∧
    predict ⟨none⟩ [] ≠ Except.ok [] ∧
    predict (train ⟨none⟩ wM) [] = Except.ok (predictScores wM []) :=
  ⟨C8_predict_before_training_errors.1 ⟨none⟩ [] rfl,
   C8_predict_before_training_errors.2.1 ⟨none⟩ [] rfl [],
   C8_predict_before_training_errors.2.2 ⟨none⟩ wM []⟩
